import Mathlib

/-!
Verification of the Duo-fy real-time sync music app core against its
natural-language specification.

The development shallowly embeds, in Lean:
  * the client-side drift compensator (the sync-play / sync-seek socket
    handlers in client/src/components/Room.jsx),
  * the server-side room registry and event relay (the create-room,
    join-room, leave-room and control socket handlers in server.js),
  * the client connection-status handlers (disconnect / reconnect_attempt
    in Room.jsx) and the join-modal input normalization
    (JoinRoomModal.jsx).

JavaScript numbers that hold millisecond timestamps and positions are
modelled as Int; optional / possibly-missing JSON fields as Option;
JavaScript truthiness of a string is modelled as "nonempty", truthiness of
a number as "nonzero"; the nullish-coalescing operator x ?? d is
Option.getD.
-/

namespace Duofy

/-! ## Client-side drift compensator (Room.jsx) -/

/-- Payload of a received sync-play / sync-pause / sync-seek event, as the
client handler reads it: every field may be absent. -/
structure SyncPayload where
  roomId : Option String
  timestamp : Option Int
  progressMs : Option Int
  positionMs : Option Int
deriving Repr, DecidableEq

/-- Lag computation of the sync-play handler:
`const lag = data?.timestamp ? receivedAt - data.timestamp : 0;`.
A missing timestamp, or the (falsy) timestamp 0, gives lag 0; otherwise
the raw difference, negative values included, is used. -/
def syncPlayLag (p : SyncPayload) (receivedAt : Int) : Int :=
  match p.timestamp with
  | some t => if t = 0 then 0 else receivedAt - t
  | none => 0

/-- Target position of the sync-play handler:
`const targetMs = Math.max(0, (data?.progressMs ?? 0) + lag);`. -/
def syncPlayTargetMs (p : SyncPayload) (receivedAt : Int) : Int :=
  max 0 (p.progressMs.getD 0 + syncPlayLag p receivedAt)

/-- Target position of the sync-seek handler:
`const seekLag = data?.timestamp ? Date.now() - data.timestamp : 0;`
`const targetMs = Math.max(0, (data?.positionMs ?? 0) + seekLag);`. -/
def syncSeekTargetMs (p : SyncPayload) (receivedAt : Int) : Int :=
  max 0 (p.positionMs.getD 0 + syncPlayLag p receivedAt)

end Duofy

namespace Duofy

/-- Claim C1 (counterexample): a sync-play event carrying
progressMs = 60000 and senderTimestamp = 0, received at time 0 + 250
(so d = 250 ≥ 0), yields targetMs = 60000 and not the claimed
60000 + 250: the zero timestamp is falsy in JavaScript, so the handler
computes lag = 0. -/
theorem c1_zero_timestamp_counterexample :
    syncPlayTargetMs ⟨some "R", some 0, some 60000, none⟩ (0 + 250) = 60000 ∧
      (60000 : Int) ≠ 60000 + 250 := by
  constructor
  · decide
  · decide

/-- Claim C1 (amended): for every received sync-play event carrying
progressMs = p ≥ 0 and a nonzero senderTimestamp T, processed at
receivedAt = T + d with d ≥ 0, the handler computes targetMs = p + d;
moreover the computed targetMs is never negative, for every payload and
receipt time.  (The amendment excludes the falsy timestamp T = 0, which
the handler treats as absent, giving lag 0 and targetMs = p.) -/
theorem c1_drift_compensation_amended (rid : Option String) (pos : Option Int)
    (p T d : Int) (hp : 0 ≤ p) (hd : 0 ≤ d) (hT : T ≠ 0) :
    syncPlayTargetMs ⟨rid, some T, some p, pos⟩ (T + d) = p + d ∧
      ∀ (q : SyncPayload) (receivedAt : Int), 0 ≤ syncPlayTargetMs q receivedAt := by
  constructor
  · simp only [syncPlayTargetMs, syncPlayLag, Option.getD_some, hT, if_false]
    omega
  · intro q receivedAt
    exact le_max_left 0 _

/-- Witness for C1: at p = 60000, T = 1000, d = 250 the amended theorem
gives targetMs = 60250. -/
theorem c1_drift_compensation_witness :
    syncPlayTargetMs ⟨none, some 1000, some 60000, none⟩ (1000 + 250) = 60000 + 250 :=
  (c1_drift_compensation_amended none none 60000 1000 250 (by decide) (by decide)
    (by decide)).1

/-- Claim C2 (counterexample): a sync-play event with senderTimestamp
1000 and progressMs 60000 received at time 900 (clock skew,
receivedAt < senderTimestamp) yields targetMs = 59900, not the claimed
exact progressMs 60000: the negative raw difference is applied, only the
final targetMs is floored at 0. -/
theorem c2_clock_skew_counterexample :
    syncPlayTargetMs ⟨some "R", some 1000, some 60000, none⟩ 900 = 59900 ∧
      (59900 : Int) ≠ 60000 := by
  constructor
  · decide
  · decide

/-- Claim C2 (amended): on clock skew (receivedAt < senderTimestamp) the
handlers do not clamp the lag; the negative difference is applied to the
position and only the final target is floored at 0:
targetMs = max 0 (progressMs + (receivedAt − t)), which is strictly less
than progressMs whenever progressMs > 0 (never equal as the claim
states); likewise for the sync-seek handler and positionMs. -/
theorem c2_negative_lag_amended (rid : Option String) (pos : Option Int)
    (p q t receivedAt : Int) (hp : 0 < p) (hq : 0 < q) (ht : 0 < t)
    (hskew : receivedAt < t) :
    syncPlayTargetMs ⟨rid, some t, some p, pos⟩ receivedAt
        = max 0 (p + (receivedAt - t)) ∧
      syncPlayTargetMs ⟨rid, some t, some p, pos⟩ receivedAt < p ∧
      syncSeekTargetMs ⟨rid, some t, pos, some q⟩ receivedAt < q := by
  have ht0 : t ≠ 0 := by omega
  refine ⟨?_, ?_, ?_⟩
  · simp only [syncPlayTargetMs, syncPlayLag, Option.getD_some, ht0, if_false]
  · simp only [syncPlayTargetMs, syncPlayLag, Option.getD_some, ht0, if_false]
    rw [max_lt_iff]
    omega
  · simp only [syncSeekTargetMs, syncPlayLag, Option.getD_some, ht0, if_false]
    rw [max_lt_iff]
    omega

/-- Witness for C2: with senderTimestamp 1000, receivedAt 900,
progressMs = positionMs = 60000, the target is 59900 < 60000 for both
handlers. -/
theorem c2_negative_lag_witness :
    syncPlayTargetMs ⟨none, some 1000, some 60000, none⟩ 900
        = max 0 (60000 + (900 - 1000)) ∧
      syncPlayTargetMs ⟨none, some 1000, some 60000, none⟩ 900 < 60000 ∧
      syncSeekTargetMs ⟨none, some 1000, none, some 60000⟩ 900 < 60000 :=
  c2_negative_lag_amended none none 60000 60000 1000 900 (by decide) (by decide)
    (by decide) (by decide)

/-! ## Server-side room registry and event relay (server.js) -/

/-- Socket identifiers of the relay. -/
abbrev ConnId := Nat

/-- Room identifiers (roomId strings). -/
abbrev RoomId := String

/-- The roomId field of an incoming request, as a JavaScript value: a
string, a missing (undefined) field, or a present non-string value. -/
inductive JsRoomId
  | str (s : String)
  | absent
  | nonstr
deriving Repr, DecidableEq

/-- Server state visible to the handlers: `member` is the socket.io
adapter's membership relation (the set of (socket, room) pairs realized by
socket.join / socket.leave); `cur` records each socket's non-null
`currentRoom` closure variable. -/
structure ServerState where
  member : List (ConnId × RoomId)
  cur : List (ConnId × RoomId)
deriving Repr, DecidableEq

/-- State at server start: no memberships, no current rooms. -/
def initState : ServerState := ⟨[], []⟩

/-- Members of a room, as read off the adapter
(`io.sockets.adapter.rooms.get(roomId)`). -/
def roomMembers (s : ServerState) (r : RoomId) : List ConnId :=
  (s.member.filter (fun p => p.2 = r)).map Prod.fst

/-- `getRoomSize(roomId)`: the number of sockets in the room (0 when the
room does not exist). -/
def roomSize (s : ServerState) (r : RoomId) : Nat :=
  (roomMembers s r).length

/-- `socket.join(roomId)`: adds the pair to the adapter; a no-op when the
socket is already in the room. -/
def insertMember (m : List (ConnId × RoomId)) (c : ConnId) (r : RoomId) :
    List (ConnId × RoomId) :=
  if (c, r) ∈ m then m else (c, r) :: m

/-- `socket.leave(roomId)`: removes the pair from the adapter; a no-op
when the socket is not in the room. -/
def removeMember (m : List (ConnId × RoomId)) (c : ConnId) (r : RoomId) :
    List (ConnId × RoomId) :=
  m.filter (fun p => p ≠ (c, r))

/-- Assignment to the per-socket `currentRoom` variable (`some r` for
`currentRoom = roomId`, `none` for `currentRoom = null`). -/
def setCur (cur : List (ConnId × RoomId)) (c : ConnId) (v : Option RoomId) :
    List (ConnId × RoomId) :=
  match v with
  | some r => (c, r) :: cur.filter (fun p => p.1 ≠ c)
  | none => cur.filter (fun p => p.1 ≠ c)

/-- Acknowledgment sent through a request's callback: either
`{ success: true, roomId }` or `{ success: false, error }`. -/
inductive CJResponse
  | ok (roomId : RoomId)
  | err (msg : String)
deriving Repr, DecidableEq

/-- Payload of a relayed sync-play / sync-pause event: the server builds
the fresh object `{ roomId, timestamp: timestamp ?? Date.now() }`, so the
forwarded payload carries exactly these two fields; `progressMs` is kept
in the type to record that the relay never sets it. -/
structure SyncOutPayload where
  roomId : RoomId
  timestamp : Int
  progressMs : Option Int
deriving Repr, DecidableEq

/-- Events the server emits to clients. -/
inductive OutEvent
  | partnerJoined
  | partnerLeft
  | syncPlay (p : SyncOutPayload)
  | syncPause (p : SyncOutPayload)
deriving Repr, DecidableEq

/-- One delivery: which socket receives which event. -/
structure Emit where
  target : ConnId
  event : OutEvent
deriving Repr, DecidableEq

/-- The create-room handler: requires a function callback (else the
request is ignored), a truthy string roomId (else
`{success:false, error:"Invalid room ID."}`), and an empty room (else
`{success:false, error:"Room ID already in use."}`); on success joins the
socket to the room, sets `currentRoom`, and acknowledges
`{success:true, roomId}`.  The result is (new state, acknowledgment sent
through the callback if any, events emitted). -/
def createRoomHandler (s : ServerState) (sender : ConnId) (rid : JsRoomId)
    (hasCallback : Bool) : ServerState × Option CJResponse × List Emit :=
  if hasCallback then
    match rid with
    | .str r =>
      if r = "" then (s, some (.err "Invalid room ID."), [])
      else if 0 < roomSize s r then (s, some (.err "Room ID already in use."), [])
      else (⟨insertMember s.member sender r, setCur s.cur sender (some r)⟩,
        some (.ok r), [])
    | _ => (s, some (.err "Invalid room ID."), [])
  else (s, none, [])

/-- The join-room handler: requires a function callback and a truthy
string roomId as above; an empty room fails with
`{success:false, error:"Room not found."}`, a room with
`size >= MAX_ROOM_SIZE` (2) fails with
`{success:false, error:"Room is full."}`; on success joins the socket,
sets `currentRoom`, emits partner-joined to the other members
(`socket.to(roomId)` excludes the sender), and acknowledges
`{success:true, roomId}`. -/
def joinRoomHandler (s : ServerState) (sender : ConnId) (rid : JsRoomId)
    (hasCallback : Bool) : ServerState × Option CJResponse × List Emit :=
  if hasCallback then
    match rid with
    | .str r =>
      if r = "" then (s, some (.err "Invalid room ID."), [])
      else if roomSize s r = 0 then (s, some (.err "Room not found."), [])
      else if 2 ≤ roomSize s r then (s, some (.err "Room is full."), [])
      else
        let s2 : ServerState :=
          ⟨insertMember s.member sender r, setCur s.cur sender (some r)⟩
        (s2, some (.ok r),
          ((roomMembers s2 r).filter (fun c => c ≠ sender)).map
            (fun c => Emit.mk c .partnerJoined))
    | _ => (s, some (.err "Invalid room ID."), [])
  else (s, none, [])

/-- The leave-room handler: `if (!roomId) return;` then
`socket.leave(roomId)`, then `socket.to(roomId).emit("partner-left")`
(all members of the room except the sender, on the post-leave adapter),
then `currentRoom = null` — the last three run regardless of whether the
sender was a member. -/
def leaveRoomHandler (s : ServerState) (sender : ConnId) (r : RoomId) :
    ServerState × List Emit :=
  if r = "" then (s, [])
  else
    let s2 : ServerState := ⟨removeMember s.member sender r, s.cur⟩
    (⟨s2.member, setCur s.cur sender none⟩,
      ((roomMembers s2 r).filter (fun c => c ≠ sender)).map
        (fun c => Emit.mk c .partnerLeft))

/-- Incoming control event as destructured by the server:
`{ event, roomId, timestamp }`; the client may also attach progressMs,
which the server never reads. -/
structure ControlMsg where
  event : Option String
  roomId : JsRoomId
  timestamp : Option Int
  progressMs : Option Int
deriving Repr, DecidableEq

/-- A truthy string roomId value (`!roomId` is false and the adapter can
hold it); missing and non-string values yield none. -/
def jsTruthyRoom (rid : JsRoomId) : Option RoomId :=
  match rid with
  | .str r => if r = "" then none else some r
  | _ => none

/-- The control handler: validates `!roomId || !event`, then
`["play","pause"].includes(event)`, then `socket.rooms.has(roomId)`; on
success emits sync-play / sync-pause with payload
`{ roomId, timestamp: timestamp ?? Date.now() }` to `io.to(roomId)` — all
members of the room.  Every rejection returns silently; the handler has
no callback, so no response of any kind exists.  State is untouched. -/
def controlHandler (s : ServerState) (sender : ConnId) (m : ControlMsg)
    (serverNow : Int) : List Emit :=
  match jsTruthyRoom m.roomId with
  | none => []
  | some r =>
    match m.event with
    | none => []
    | some ev =>
      if ev = "" then []
      else if ev = "play" then
        if (sender, r) ∈ s.member then
          (roomMembers s r).map (fun c =>
            Emit.mk c (.syncPlay ⟨r, m.timestamp.getD serverNow, none⟩))
        else []
      else if ev = "pause" then
        if (sender, r) ∈ s.member then
          (roomMembers s r).map (fun c =>
            Emit.mk c (.syncPause ⟨r, m.timestamp.getD serverNow, none⟩))
        else []
      else []

/-- Registry operations a client can drive (the state-changing socket
events). -/
inductive SOp
  | create (c : ConnId) (rid : JsRoomId) (cb : Bool)
  | join (c : ConnId) (rid : JsRoomId) (cb : Bool)
  | leave (c : ConnId) (r : RoomId)
deriving Repr, DecidableEq

/-- State reached after one registry operation. -/
def applyOp (s : ServerState) : SOp → ServerState
  | .create c rid cb => (createRoomHandler s c rid cb).1
  | .join c rid cb => (joinRoomHandler s c rid cb).1
  | .leave c r => (leaveRoomHandler s c r).1

/-- State reached after a sequence of registry operations. -/
def runOps (s : ServerState) (ops : List SOp) : ServerState :=
  ops.foldl applyOp s

/-- Joining a socket to a room grows that room by at most one member. -/
theorem roomSize_insertMember_le (m cur cur2 : List (ConnId × RoomId))
    (c : ConnId) (r0 r : RoomId) :
    roomSize ⟨insertMember m c r0, cur⟩ r ≤ roomSize ⟨m, cur2⟩ r + 1 := by
  simp only [roomSize, roomMembers, List.length_map, insertMember]
  split
  · omega
  · rw [List.filter_cons]
    split
    · simp
    · omega

/-- Joining a socket to a room leaves every other room's size unchanged. -/
theorem roomSize_insertMember_ne (m cur cur2 : List (ConnId × RoomId))
    (c : ConnId) (r0 r : RoomId) (h : r ≠ r0) :
    roomSize ⟨insertMember m c r0, cur⟩ r = roomSize ⟨m, cur2⟩ r := by
  simp only [roomSize, roomMembers, List.length_map, insertMember]
  split
  · rfl
  · rw [List.filter_cons]
    have h2 : ¬((c, r0).2 = r) := by simpa using Ne.symm h
    simp [h2]

/-- Removing a socket from a room never grows any room. -/
theorem roomSize_removeMember_le (m cur cur2 : List (ConnId × RoomId))
    (c : ConnId) (r0 r : RoomId) :
    roomSize ⟨removeMember m c r0, cur⟩ r ≤ roomSize ⟨m, cur2⟩ r := by
  simp only [roomSize, roomMembers, List.length_map, removeMember]
  exact List.Sublist.length_le (List.Sublist.filter _ (List.filter_sublist m))

/-- One registry operation preserves the capacity invariant: every room
keeps at most MAX_ROOM_SIZE = 2 members, because create requires an empty
room and join requires size < 2. -/
theorem roomSize_applyOp_le (s : ServerState) (op : SOp)
    (hs : ∀ r2, roomSize s r2 ≤ 2) (r : RoomId) :
    roomSize (applyOp s op) r ≤ 2 := by
  cases op with
  | create c rid cb =>
    cases cb with
    | false => simpa [applyOp, createRoomHandler] using hs r
    | true =>
      cases rid with
      | absent => simpa [applyOp, createRoomHandler] using hs r
      | nonstr => simpa [applyOp, createRoomHandler] using hs r
      | str r0 =>
        by_cases h0 : r0 = ""
        · simpa [applyOp, createRoomHandler, h0] using hs r
        · by_cases h1 : 0 < roomSize s r0
          · simpa [applyOp, createRoomHandler, h0, h1] using hs r
          · have hgoal :
                applyOp s (.create c (.str r0) true)
                  = ⟨insertMember s.member c r0, setCur s.cur c (some r0)⟩ := by
              simp [applyOp, createRoomHandler, h0, h1]
            rw [hgoal]
            by_cases hr : r = r0
            · subst hr
              have hle := roomSize_insertMember_le s.member
                (setCur s.cur c (some r)) s.cur c r r
              have heta : (⟨s.member, s.cur⟩ : ServerState) = s := rfl
              rw [heta] at hle
              have hz : roomSize s r = 0 := by omega
              omega
            · rw [roomSize_insertMember_ne s.member _ s.cur c r0 r hr]
              exact hs r
  | join c rid cb =>
    cases cb with
    | false => simpa [applyOp, joinRoomHandler] using hs r
    | true =>
      cases rid with
      | absent => simpa [applyOp, joinRoomHandler] using hs r
      | nonstr => simpa [applyOp, joinRoomHandler] using hs r
      | str r0 =>
        by_cases h0 : r0 = ""
        · simpa [applyOp, joinRoomHandler, h0] using hs r
        · by_cases h1 : roomSize s r0 = 0
          · simpa [applyOp, joinRoomHandler, h0, h1] using hs r
          · by_cases h2 : 2 ≤ roomSize s r0
            · simpa [applyOp, joinRoomHandler, h0, h1, h2] using hs r
            · have hgoal :
                  applyOp s (.join c (.str r0) true)
                    = ⟨insertMember s.member c r0, setCur s.cur c (some r0)⟩ := by
                simp [applyOp, joinRoomHandler, h0, h1, h2]
              rw [hgoal]
              by_cases hr : r = r0
              · subst hr
                have hle := roomSize_insertMember_le s.member
                  (setCur s.cur c (some r)) s.cur c r r
                have heta : (⟨s.member, s.cur⟩ : ServerState) = s := rfl
                rw [heta] at hle
                omega
              · rw [roomSize_insertMember_ne s.member _ s.cur c r0 r hr]
                exact hs r
  | leave c r0 =>
    by_cases h0 : r0 = ""
    · simpa [applyOp, leaveRoomHandler, h0] using hs r
    · have hgoal :
          applyOp s (.leave c r0)
            = ⟨removeMember s.member c r0, setCur s.cur c none⟩ := by
        simp [applyOp, leaveRoomHandler, h0]
      rw [hgoal]
      have hle := roomSize_removeMember_le s.member (setCur s.cur c none)
        s.cur c r0 r
      have heta : (⟨s.member, s.cur⟩ : ServerState) = s := rfl
      rw [heta] at hle
      have := hs r
      omega

/-- Reachable capacity invariant: after any sequence of registry
operations from the initial state, every room has at most 2 members. -/
theorem roomSize_le_two (ops : List SOp) (r : RoomId) :
    roomSize (runOps initState ops) r ≤ 2 := by
  suffices h : ∀ (l : List SOp) (s : ServerState),
      (∀ r2, roomSize s r2 ≤ 2) → ∀ r2, roomSize (runOps s l) r2 ≤ 2 by
    refine h ops initState (fun r2 => ?_) r
    simp [initState, roomSize, roomMembers]
  intro l
  induction l with
  | nil => intro s hs r2; simpa [runOps] using hs r2
  | cons op rest ih =>
    intro s hs r2
    have hstep : ∀ r3, roomSize (applyOp s op) r3 ≤ 2 :=
      fun r3 => roomSize_applyOp_le s op hs r3
    have : runOps s (op :: rest) = runOps (applyOp s op) rest := by
      simp [runOps]
    rw [this]
    exact ih (applyOp s op) hstep r2

/-- A socket that is in the adapter's pair set for a room is listed among
that room's members. -/
theorem mem_roomMembers_of_mem {s : ServerState} {c : ConnId} {r : RoomId}
    (h : (c, r) ∈ s.member) : c ∈ roomMembers s r := by
  simp only [roomMembers, List.mem_map, List.mem_filter]
  exact ⟨(c, r), ⟨h, by simp⟩, rfl⟩

/-- Claim C4: for a (nonempty) room id r and a state reached by any
sequence of registry operations, create-room(r) fails with the
room-already-in-use error exactly when r has at least one member and
succeeds exactly when it has none; join-room(r) fails with room-not-found
exactly when r has zero members, fails with room-is-full exactly when r
has two members (the reachable capacity bound makes the code's
`size >= 2` test equivalent to `size == 2`), and succeeds exactly when it
has one. -/
theorem c4_room_lifecycle_responses (ops : List SOp) (c : ConnId) (r : RoomId)
    (hr : r ≠ "") :
    ((createRoomHandler (runOps initState ops) c (.str r) true).2.1
        = some (.err "Room ID already in use.")
      ↔ 1 ≤ roomSize (runOps initState ops) r) ∧
    ((createRoomHandler (runOps initState ops) c (.str r) true).2.1
        = some (.ok r)
      ↔ roomSize (runOps initState ops) r = 0) ∧
    ((joinRoomHandler (runOps initState ops) c (.str r) true).2.1
        = some (.err "Room not found.")
      ↔ roomSize (runOps initState ops) r = 0) ∧
    ((joinRoomHandler (runOps initState ops) c (.str r) true).2.1
        = some (.err "Room is full.")
      ↔ roomSize (runOps initState ops) r = 2) ∧
    ((joinRoomHandler (runOps initState ops) c (.str r) true).2.1
        = some (.ok r)
      ↔ roomSize (runOps initState ops) r = 1) := by
  have h2 : roomSize (runOps initState ops) r ≤ 2 := roomSize_le_two ops r
  set s := runOps initState ops with hsdef
  have h012 : roomSize s r = 0 ∨ roomSize s r = 1 ∨ roomSize s r = 2 := by omega
  rcases h012 with h | h | h <;>
    simp [createRoomHandler, joinRoomHandler, hr, h]

/-- Witness for C4: after creating room "R", a join by another connection
succeeds. -/
theorem c4_room_lifecycle_witness :
    (joinRoomHandler (runOps initState [SOp.create 0 (.str "R") true]) 1
        (.str "R") true).2.1 = some (.ok "R") := by
  have h := c4_room_lifecycle_responses [SOp.create 0 (.str "R") true] 1 "R"
    (by decide)
  exact h.2.2.2.2.mpr (by decide)

/-- The kinds the relay accepts: `["play", "pause"].includes(event)`. -/
def knownControlKind (e : Option String) : Bool :=
  decide (e = some "play") || decide (e = some "pause")

/-- Whether the sender currently occupies the claimed room
(`socket.rooms.has(roomId)` behind a truthy roomId). -/
def senderAuthorized (s : ServerState) (c : ConnId) (rid : JsRoomId) : Bool :=
  match jsTruthyRoom rid with
  | some r => decide ((c, r) ∈ s.member)
  | none => false

/-- Claim C5: a control event whose kind is unknown, or whose sender is
not a member of the claimed room, is dropped: the relay emits nothing to
anyone (and the control handler takes no acknowledgment callback, so no
response channel to the sender even exists). -/
theorem c5_control_drop (s : ServerState) (c : ConnId) (m : ControlMsg)
    (now : Int)
    (h : knownControlKind m.event = false ∨ senderAuthorized s c m.roomId = false) :
    controlHandler s c m now = [] := by
  rcases h with h | h
  · unfold controlHandler
    cases hrm : jsTruthyRoom m.roomId with
    | none => rfl
    | some r =>
      cases hev : m.event with
      | none => rfl
      | some ev =>
        rw [hev] at h
        have hp : ev ≠ "play" := by
          intro hcon
          subst hcon
          simp [knownControlKind] at h
        have hq : ev ≠ "pause" := by
          intro hcon
          subst hcon
          simp [knownControlKind] at h
        simp [hp, hq]
  · unfold controlHandler
    cases hrm : jsTruthyRoom m.roomId with
    | none => rfl
    | some r =>
      have hmem : (c, r) ∉ s.member := by
        rw [senderAuthorized, hrm] at h
        simpa using h
      cases hev : m.event with
      | none => rfl
      | some ev =>
        by_cases he : ev = ""
        · simp [he]
        · simp [he, hmem]

/-- Witness for C5: a "seek" control event (an unknown kind for the
relay) from a room member yields no deliveries. -/
theorem c5_control_drop_witness :
    controlHandler ⟨[(0, "R")], []⟩ 0 ⟨some "seek", .str "R", some 1, none⟩ 5
      = [] :=
  c5_control_drop ⟨[(0, "R")], []⟩ 0 ⟨some "seek", .str "R", some 1, none⟩ 5
    (Or.inl (by decide))

/-- Claim C3 (counterexample): with sockets 0 and 1 both in room "R", a
play control event from socket 0 carrying progressMs = 60000 is delivered
back to the sending socket 0 (`io.to(roomId)` includes the sender), and
no delivery carries the progressMs value — the relay rebuilds the payload
as `{ roomId, timestamp }`, dropping progressMs, so the event is not
forwarded verbatim and not only to the other member. -/
theorem c3_echo_counterexample :
    Emit.mk 0 (.syncPlay ⟨"R", 5, none⟩)
        ∈ controlHandler ⟨[(0, "R"), (1, "R")], [(0, "R"), (1, "R")]⟩ 0
            ⟨some "play", .str "R", some 5, some 60000⟩ 99 ∧
      ∀ e ∈ controlHandler ⟨[(0, "R"), (1, "R")], [(0, "R"), (1, "R")]⟩ 0
            ⟨some "play", .str "R", some 5, some 60000⟩ 99,
        e.event ≠ .syncPlay ⟨"R", 5, some 60000⟩ := by
  decide

/-- Claim C3 (amended): an accepted control event (known kind, sender a
member of the room) is delivered to every member of the room, the sender
included, and the delivered payload consists of the roomId and the
sender's timestamp (defaulted to the relay clock when absent) only — in
particular the sender's own connection receives the event. -/
theorem c3_relay_broadcast_amended (s : ServerState) (c : ConnId) (r : RoomId)
    (ts prog : Option Int) (now : Int) (hr : r ≠ "")
    (hmem : (c, r) ∈ s.member) :
    controlHandler s c ⟨some "play", .str r, ts, prog⟩ now
        = (roomMembers s r).map
            (fun x => Emit.mk x (.syncPlay ⟨r, ts.getD now, none⟩)) ∧
      controlHandler s c ⟨some "pause", .str r, ts, prog⟩ now
        = (roomMembers s r).map
            (fun x => Emit.mk x (.syncPause ⟨r, ts.getD now, none⟩)) ∧
      Emit.mk c (.syncPlay ⟨r, ts.getD now, none⟩)
        ∈ controlHandler s c ⟨some "play", .str r, ts, prog⟩ now := by
  have hjs : jsTruthyRoom (.str r) = some r := by simp [jsTruthyRoom, hr]
  have h1 : controlHandler s c ⟨some "play", .str r, ts, prog⟩ now
      = (roomMembers s r).map
          (fun x => Emit.mk x (.syncPlay ⟨r, ts.getD now, none⟩)) := by
    simp [controlHandler, hjs, hmem]
  have h2 : controlHandler s c ⟨some "pause", .str r, ts, prog⟩ now
      = (roomMembers s r).map
          (fun x => Emit.mk x (.syncPause ⟨r, ts.getD now, none⟩)) := by
    simp [controlHandler, hjs, hmem]
  refine ⟨h1, h2, ?_⟩
  rw [h1]
  exact List.mem_map.mpr ⟨c, mem_roomMembers_of_mem hmem, rfl⟩

/-- Witness for C3 (amended): with sockets 0 and 1 in room "R", a play
event from 0 is delivered to both 0 and 1 with the rebuilt payload. -/
theorem c3_relay_broadcast_witness :
    controlHandler ⟨[(0, "R"), (1, "R")], []⟩ 0
        ⟨some "play", .str "R", some 5, none⟩ 99
      = [Emit.mk 0 (.syncPlay ⟨"R", 5, none⟩),
         Emit.mk 1 (.syncPlay ⟨"R", 5, none⟩)] := by
  have h := c3_relay_broadcast_amended ⟨[(0, "R"), (1, "R")], []⟩ 0 "R"
    (some 5) none 99 (by decide) (by decide)
  rw [h.1]
  rfl

/-- Membership in a pair is preserved by socket.join. -/
theorem mem_insertMember_of_mem {m : List (ConnId × RoomId)}
    {p : ConnId × RoomId} (c : ConnId) (r : RoomId) (h : p ∈ m) :
    p ∈ insertMember m c r := by
  unfold insertMember
  split
  · exact h
  · exact List.mem_cons_of_mem _ h

/-- socket.join puts the joining pair into the adapter. -/
theorem self_mem_insertMember (m : List (ConnId × RoomId)) (c : ConnId)
    (r : RoomId) : (c, r) ∈ insertMember m c r := by
  unfold insertMember
  split
  · assumption
  · exact List.mem_cons_self _ _

/-- A socket is listed among a room's members exactly when its pair is in
the adapter. -/
theorem mem_roomMembers_iff {s : ServerState} {c : ConnId} {r : RoomId} :
    c ∈ roomMembers s r ↔ (c, r) ∈ s.member := by
  simp only [roomMembers, List.mem_map, List.mem_filter]
  constructor
  · rintro ⟨⟨a, b⟩, ⟨hm, hb⟩, rfl⟩
    simp only [decide_eq_true_eq] at hb
    exact hb ▸ hm
  · intro h
    exact ⟨(c, r), ⟨h, by simp⟩, rfl⟩

/-- Claim C6 (counterexample): connection 0 creates room "A" and then
creates room "B"; afterwards it is a member of both rooms — neither
create nor join ever removes a prior membership, so "at most one room per
connection" fails and no implicit leave happens. -/
theorem c6_two_rooms_counterexample :
    (0, "A") ∈ (runOps initState
        [SOp.create 0 (.str "A") true, SOp.create 0 (.str "B") true]).member ∧
      (0, "B") ∈ (runOps initState
        [SOp.create 0 (.str "A") true, SOp.create 0 (.str "B") true]).member ∧
      ("A" : RoomId) ≠ "B" := by
  decide

/-- Claim C6 (amended): create-room and join-room never remove an
existing membership pair (there is no implicit leave of the prior room);
a successful join merely adds the new pair and overwrites the
per-connection currentRoom variable with the new room, so a connection
can accumulate membership in several rooms. -/
theorem c6_membership_monotone_amended (s : ServerState) (c : ConnId)
    (rid : JsRoomId) (cb : Bool) :
    (∀ p ∈ s.member, p ∈ (createRoomHandler s c rid cb).1.member) ∧
      (∀ p ∈ s.member, p ∈ (joinRoomHandler s c rid cb).1.member) ∧
      (∀ r : RoomId, (joinRoomHandler s c (.str r) true).2.1 = some (.ok r) →
        (c, r) ∈ (joinRoomHandler s c (.str r) true).1.member ∧
          List.lookup c (joinRoomHandler s c (.str r) true).1.cur = some r) := by
  refine ⟨?_, ?_, ?_⟩
  · intro p hp
    unfold createRoomHandler
    by_cases hcb : cb
    · simp only [hcb, if_true]
      cases rid with
      | absent => simpa using hp
      | nonstr => simpa using hp
      | str r0 =>
        by_cases h0 : r0 = ""
        · simpa [h0] using hp
        · by_cases h1 : 0 < roomSize s r0
          · simpa [h0, h1] using hp
          · simp only [h0, h1, if_false]
            exact mem_insertMember_of_mem c r0 hp
    · simpa [hcb] using hp
  · intro p hp
    unfold joinRoomHandler
    by_cases hcb : cb
    · simp only [hcb, if_true]
      cases rid with
      | absent => simpa using hp
      | nonstr => simpa using hp
      | str r0 =>
        by_cases h0 : r0 = ""
        · simpa [h0] using hp
        · by_cases h1 : roomSize s r0 = 0
          · simpa [h0, h1] using hp
          · by_cases h2 : 2 ≤ roomSize s r0
            · simpa [h0, h1, h2] using hp
            · simp only [h0, h1, h2, if_false]
              exact mem_insertMember_of_mem c r0 hp
    · simpa [hcb] using hp
  · intro r hok
    by_cases h0 : r = ""
    · rw [joinRoomHandler] at hok
      simp [h0] at hok
    · by_cases h1 : roomSize s r = 0
      · rw [joinRoomHandler] at hok
        simp [h0, h1] at hok
      · by_cases h2 : 2 ≤ roomSize s r
        · rw [joinRoomHandler] at hok
          simp [h0, h1, h2] at hok
        · constructor
          · rw [joinRoomHandler]
            simp only [h0, h1, h2, if_true, if_false]
            exact self_mem_insertMember s.member c r
          · rw [joinRoomHandler]
            simp only [h0, h1, h2, if_true, if_false, setCur]
            simp [List.lookup]

/-- Witness for C6 (amended): connection 0 is in room "A"; creating room
"B" keeps the membership pair (0, "A"). -/
theorem c6_membership_monotone_witness :
    (0, "A") ∈ (createRoomHandler ⟨[(0, "A")], [(0, "A")]⟩ 0 (.str "B")
        true).1.member :=
  (c6_membership_monotone_amended ⟨[(0, "A")], [(0, "A")]⟩ 0 (.str "B")
    true).1 (0, "A") (by decide)

/-- Claim C7 (counterexample): room "R" holds sockets 0 and 1; a
leave-room("R") from the non-member socket 2 still emits partner-left to
member 0 (`socket.to(roomId).emit("partner-left")` runs unconditionally),
so members do observe an effect. -/
theorem c7_nonmember_leave_counterexample :
    (2, "R") ∉ (⟨[(0, "R"), (1, "R")], []⟩ : ServerState).member ∧
      Emit.mk 0 .partnerLeft
        ∈ (leaveRoomHandler ⟨[(0, "R"), (1, "R")], []⟩ 2 "R").2 := by
  decide

/-- Claim C7 (amended): a leave-room(r) from a connection that is not a
member of r leaves the membership sets unchanged (socket.leave is a
no-op), but still emits partner-left to every current member of r and
resets the sender's currentRoom variable to null. -/
theorem c7_nonmember_leave_amended (s : ServerState) (c : ConnId) (r : RoomId)
    (hr : r ≠ "") (hnm : (c, r) ∉ s.member) :
    (leaveRoomHandler s c r).1.member = s.member ∧
      (leaveRoomHandler s c r).2
        = (roomMembers s r).map (fun x => Emit.mk x .partnerLeft) ∧
      (leaveRoomHandler s c r).1.cur = s.cur.filter (fun p => p.1 ≠ c) := by
  have hrm : removeMember s.member c r = s.member := by
    unfold removeMember
    apply List.filter_eq_self.mpr
    intro a ha
    simp only [decide_eq_true_eq]
    intro hcon
    exact hnm (hcon ▸ ha)
  have hcm : c ∉ roomMembers s r := fun hcm => hnm (mem_roomMembers_iff.mp hcm)
  have hfil : (roomMembers ⟨removeMember s.member c r, s.cur⟩ r).filter
      (fun x => x ≠ c) = roomMembers s r := by
    rw [hrm]
    show (roomMembers s r).filter (fun x => x ≠ c) = roomMembers s r
    apply List.filter_eq_self.mpr
    intro a ha
    simp only [decide_eq_true_eq]
    intro hcon
    exact hcm (hcon ▸ ha)
  refine ⟨?_, ?_, ?_⟩
  · simp only [leaveRoomHandler, hr, if_false]
    exact hrm
  · simp only [leaveRoomHandler, hr, if_false]
    rw [hfil]
  · simp only [leaveRoomHandler, hr, if_false, setCur]

/-- Witness for C7 (amended): non-member 2 leaving "R" emits partner-left
to the sole member 0 and leaves the membership list as it was. -/
theorem c7_nonmember_leave_witness :
    (leaveRoomHandler ⟨[(0, "R")], [(2, "Q")]⟩ 2 "R").2
        = [Emit.mk 0 .partnerLeft] ∧
      (leaveRoomHandler ⟨[(0, "R")], [(2, "Q")]⟩ 2 "R").1.member
        = [(0, "R")] := by
  have h := c7_nonmember_leave_amended ⟨[(0, "R")], [(2, "Q")]⟩ 2 "R"
    (by decide) (by decide)
  constructor
  · rw [h.2.1]
    rfl
  · rw [h.1]

/-! ## Join modal input handling (JoinRoomModal.jsx) and client
connection-state handlers (Room.jsx) -/

/-- ASCII uppercasing of one character, as JavaScript toUpperCase acts on
the characters that can occur in a room code. -/
def jsToUpperChar (ch : Char) : Char :=
  if 'a' ≤ ch ∧ ch ≤ 'z' then Char.ofNat (ch.toNat - 32) else ch

/-- The join modal's handleChange:
`e.target.value.toUpperCase().replace(/[^A-Z0-9]/g, '')` — the typed
value is uppercased and stripped to the characters A-Z0-9 before it ever
becomes the room code. -/
def sanitizeRoomCode (input : String) : String :=
  String.mk ((input.toList.map jsToUpperChar).filter
    (fun ch => ('A' ≤ ch ∧ ch ≤ 'Z') ∨ ('0' ≤ ch ∧ ch ≤ '9')))

/-- JavaScript String.prototype.trim: whitespace removed from both
ends. -/
def jsTrim (s : String) : String :=
  String.mk (((s.toList.dropWhile Char.isWhitespace).reverse.dropWhile
    Char.isWhitespace).reverse)

/-- The join modal's handleSubmit: trims the held room code and submits
it (calls onJoin) only when it is nonempty and at least 4 characters. -/
def submitRoomCode (roomCode : String) : Option String :=
  let trimmed := jsTrim roomCode
  if trimmed = "" then none
  else if trimmed.length < 4 then none
  else some trimmed

/-- Claim C8 (counterexample): after a successful create-room("AB12CD"),
a join-room request that actually carries the lower-case id "ab12cd"
fails with "Room not found." and the creator receives nothing — the
server looks rooms up by the raw string and performs no case
normalization. -/
theorem c8_case_sensitive_counterexample :
    (createRoomHandler initState 0 (.str "AB12CD") true).2.1
        = some (.ok "AB12CD") ∧
      (joinRoomHandler (createRoomHandler initState 0 (.str "AB12CD") true).1
          1 (.str "ab12cd") true).2.1 = some (.err "Room not found.") ∧
      (joinRoomHandler (createRoomHandler initState 0 (.str "AB12CD") true).1
          1 (.str "ab12cd") true).2.2 = [] := by
  decide

/-- Claim C8 (amended): case normalization is performed client-side, not
by the server: the join modal uppercases typed input, so typing "ab12cd"
produces and submits the room code "AB12CD", and the join-room request
that is actually sent carries "AB12CD", succeeds against the room created
as "AB12CD", and makes the creator receive partner-joined.  A raw
join-room request carrying "ab12cd" itself fails with "Room not found.". -/
theorem c8_client_normalization_amended :
    sanitizeRoomCode "ab12cd" = "AB12CD" ∧
      submitRoomCode (sanitizeRoomCode "ab12cd") = some "AB12CD" ∧
      (joinRoomHandler (createRoomHandler initState 0 (.str "AB12CD") true).1
          1 (.str (sanitizeRoomCode "ab12cd")) true).2.1
        = some (.ok "AB12CD") ∧
      (joinRoomHandler (createRoomHandler initState 0 (.str "AB12CD") true).1
          1 (.str (sanitizeRoomCode "ab12cd")) true).2.2
        = [Emit.mk 0 .partnerJoined] := by
  decide

/-- Client connection/partner state tracked by Room.jsx (the pieces the
connection-status socket handlers touch). -/
structure ClientState where
  connStatus : String
  syncPlaying : Bool
  partnerOnline : Bool
  partnerPlaying : Bool
  showCodeCard : Bool
deriving Repr, DecidableEq

/-- The disconnect handler:
`r => { if (r !== "io client disconnect") { setConnStatus("disconnected");
setSyncPlaying(false); } }` — partnerOnline is left untouched. -/
def onDisconnect (st : ClientState) (reason : String) : ClientState :=
  if reason ≠ "io client disconnect" then
    { st with connStatus := "disconnected", syncPlaying := false }
  else st

/-- The reconnect_attempt handler: `() => setConnStatus("reconnecting")`
— nothing else changes. -/
def onReconnectAttempt (st : ClientState) : ClientState :=
  { st with connStatus := "reconnecting" }

/-- The partner-left handler: clears partner presence, partner playing,
the sync flag, and re-shows the invite code card. -/
def onPartnerLeft (st : ClientState) : ClientState :=
  { st with partnerOnline := false, partnerPlaying := false, showCodeCard := true, syncPlaying := false }

/-- Claim C9 (counterexample): from a connected state with the partner
present and playing together, entering reconnecting changes only
connStatus — partnerOnline and syncPlaying both stay true — and entering
disconnected (transport close) clears syncPlaying but leaves
partnerOnline true; the claimed clearing of partner-present state does
not happen. -/
theorem c9_reconnect_counterexample :
    (onReconnectAttempt ⟨"connected", true, true, true, false⟩).connStatus
        = "reconnecting" ∧
      (onReconnectAttempt ⟨"connected", true, true, true, false⟩).partnerOnline
        = true ∧
      (onReconnectAttempt ⟨"connected", true, true, true, false⟩).syncPlaying
        = true ∧
      (onDisconnect ⟨"connected", true, true, true, false⟩
          "transport close").connStatus = "disconnected" ∧
      (onDisconnect ⟨"connected", true, true, true, false⟩
          "transport close").partnerOnline = true := by
  decide

/-- Claim C9 (amended): on a transport disconnect (any reason other than
"io client disconnect") the client sets connStatus to "disconnected" and
clears only syncPlaying; on reconnect_attempt it sets connStatus to
"reconnecting" and clears nothing; partnerOnline is preserved by both and
is cleared only by the partner-left handler. -/
theorem c9_disconnect_transitions_amended (st : ClientState) (reason : String)
    (hreason : reason ≠ "io client disconnect") :
    onDisconnect st reason
        = { st with connStatus := "disconnected", syncPlaying := false } ∧
      onReconnectAttempt st = { st with connStatus := "reconnecting" } ∧
      (onReconnectAttempt st).partnerOnline = st.partnerOnline ∧
      (onDisconnect st reason).partnerOnline = st.partnerOnline ∧
      onPartnerLeft st
        = { st with partnerOnline := false, partnerPlaying := false, showCodeCard := true, syncPlaying := false } := by
  refine ⟨?_, rfl, rfl, ?_, rfl⟩
  · simp [onDisconnect, hreason]
  · simp [onDisconnect, hreason]

/-- Witness for C9 (amended): a "transport close" disconnect from a fully
engaged state yields disconnected status with syncPlaying cleared and
partnerOnline untouched. -/
theorem c9_disconnect_transitions_witness :
    onDisconnect ⟨"connected", true, true, true, false⟩ "transport close"
        = ⟨"disconnected", false, true, true, false⟩ ∧
      (onDisconnect ⟨"connected", true, true, true, false⟩
          "transport close").partnerOnline = true := by
  have h := c9_disconnect_transitions_amended
    ⟨"connected", true, true, true, false⟩ "transport close" (by decide)
  exact ⟨h.1, h.2.2.2.1⟩

/-- Claim C10: create-room and join-room requests with a function
callback are answered through it exactly once (the handlers produce
exactly one acknowledgment on every path); a roomId that is missing or
not a string is answered `{success:false, error:"Invalid room ID."}` with
the state unchanged and nothing emitted; a request without a function
callback is ignored entirely — no state change, no acknowledgment, no
emission. -/
theorem c10_request_guards (s : ServerState) (c : ConnId) (rid : JsRoomId) :
    ((createRoomHandler s c rid true).2.1.isSome = true ∧
      (joinRoomHandler s c rid true).2.1.isSome = true) ∧
    (rid = .absent ∨ rid = .nonstr →
      createRoomHandler s c rid true = (s, some (.err "Invalid room ID."), []) ∧
        joinRoomHandler s c rid true = (s, some (.err "Invalid room ID."), [])) ∧
    (createRoomHandler s c rid false = (s, none, []) ∧
      joinRoomHandler s c rid false = (s, none, [])) := by
  refine ⟨⟨?_, ?_⟩, ?_, ?_, ?_⟩
  · cases rid with
    | absent => simp [createRoomHandler]
    | nonstr => simp [createRoomHandler]
    | str r =>
      by_cases h0 : r = ""
      · simp [createRoomHandler, h0]
      · by_cases h1 : 0 < roomSize s r
        · simp [createRoomHandler, h0, h1]
        · simp [createRoomHandler, h0, h1]
  · cases rid with
    | absent => simp [joinRoomHandler]
    | nonstr => simp [joinRoomHandler]
    | str r =>
      by_cases h0 : r = ""
      · simp [joinRoomHandler, h0]
      · by_cases h1 : roomSize s r = 0
        · simp [joinRoomHandler, h0, h1]
        · by_cases h2 : 2 ≤ roomSize s r
          · simp [joinRoomHandler, h0, h1, h2]
          · simp [joinRoomHandler, h0, h1, h2]
  · rintro (rfl | rfl) <;> exact ⟨rfl, rfl⟩
  · rfl
  · rfl

/-- Witness for C10: a create-room request with a missing roomId is
answered with the invalid-room-id error and changes nothing. -/
theorem c10_request_guards_witness :
    createRoomHandler initState 0 .absent true
      = (initState, some (.err "Invalid room ID."), []) :=
  ((c10_request_guards initState 0 .absent).2.1 (Or.inl rfl)).1

end Duofy

